import Mathlib

/-!
Verification of the natural-language specification of the
`servicenow-mcp` HTTP wrapper (`src/app.py`) against its code.

The file shallowly embeds the Flask application in `src/app.py`:

* JSON values (as parsed by Flask's `request.get_json()`) become the
  inductive type `Json`, with Python truthiness (`Json.pyTruthy`) and
  Python attribute access (`Json.pyGet`, which fails with an
  `AttributeError`-style message on non-dict values, as `data.get(...)`
  does in Python).
* The process environment becomes `Env` (three optional variables).
* `ServiceNowClient` and its lazy singleton initialisation
  (`get_snow_client`) are translated field by field; the module-level
  global `snow_client` becomes an explicit `Option ServiceNowClient`
  threaded through every handler.
* The network is an oracle `Oracle : OutboundCall → Except String Json`
  giving the outcome of `ServiceNowClient._make_request`'s
  `requests.<verb>(...)` + `raise_for_status()` + `.json()` sequence:
  `Except.ok v` is the decoded 2xx JSON payload, `Except.error e` is a
  raised exception carrying message `e`.  Each handler also returns the
  list of outbound calls it actually made, so "no vendor call is made"
  is expressible.
* Each Flask view function becomes a Lean function from the server
  state, the oracle and the decoded request to a `HandlerOut`
  (status, JSON body, outbound calls, updated singleton), and Flask's
  URL-map dispatch (path first, then allowed methods, 404 when no rule
  matches the path, 405 when a rule matches the path but not the
  method) becomes `dispatch`.
-/

namespace SNowMCP

/-- JSON values as decoded by Python's `json` module / Flask's
`request.get_json()`.  Numbers are modelled as integers (no claim in
scope involves floating point); objects are association lists with the
(unique) keys in insertion order, mirroring a Python `dict`. -/
inductive Json where
  | null
  | bool (b : Bool)
  | num (n : Int)
  | str (s : String)
  | arr (elems : List Json)
  | obj (fields : List (String × Json))

/-- Python truthiness of a decoded JSON value (`bool(x)`):
`None`, `False`, `0`, `""`, `[]` and `{}` are falsy. -/
def Json.pyTruthy : Json → Bool
  | .null => false
  | .bool b => b
  | .num n => n != 0
  | .str s => s != ""
  | .arr [] => false
  | .arr (_ :: _) => true
  | .obj [] => false
  | .obj (_ :: _) => true

/-- Python `data.get(key)`: on a dict it returns the value (or `None`,
modelled as `Json.null`, when absent); on any other value it raises an
`AttributeError`, which the handlers' blanket `except Exception`
turns into a 500. -/
def Json.pyGet (j : Json) (key : String) : Except String Json :=
  match j with
  | .obj fields => .ok ((fields.lookup key).getD .null)
  | .null => .error "'NoneType' object has no attribute 'get'"
  | .bool _ => .error "'bool' object has no attribute 'get'"
  | .num _ => .error "'int' object has no attribute 'get'"
  | .str _ => .error "'str' object has no attribute 'get'"
  | .arr _ => .error "'list' object has no attribute 'get'"

/-- Field lookup in a JSON object (used to state properties of response
bodies); `none` on non-objects and absent keys. -/
def Json.lookup (j : Json) (key : String) : Option Json :=
  match j with
  | .obj fields => fields.lookup key
  | _ => none

/-- The fields of a JSON object (`[]` on non-objects).  Only applied
where the source has already established the value is a dict. -/
def Json.objFields : Json → List (String × Json)
  | .obj fields => fields
  | _ => []

/-- Python `str.upper()` for the ASCII method names `_make_request`
receives (defined over the character list so it computes in the
kernel). -/
def pyUpper (s : String) : String :=
  String.mk (s.data.map Char.toUpper)

/-- Python `str.rstrip('/')` (defined over the character list so it
computes in the kernel). -/
def rstripSlash (s : String) : String :=
  String.mk ((s.data.reverse.dropWhile (fun c => c = '/')).reverse)

/-- Numeric value of a run of ASCII decimal digits. -/
def digitsToNat (cs : List Char) : Nat :=
  cs.foldl (fun acc c => acc * 10 + (c.toNat - 48)) 0

/-- Python `int(s)` on a string, as used for the `limit` query
parameter: strip surrounding whitespace, optional sign, then a
non-empty run of ASCII decimal digits; anything else raises
`ValueError`.  (Python also accepts underscore separators and
non-ASCII digits; no claim depends on those inputs.) -/
def pyInt (s : String) : Except String Int :=
  let cs := ((s.data.dropWhile Char.isWhitespace).reverse.dropWhile Char.isWhitespace).reverse
  let signedDigits : Int × List Char :=
    match cs with
    | '-' :: rest => (-1, rest)
    | '+' :: rest => (1, rest)
    | _ => (1, cs)
  match signedDigits with
  | (sign, digits) =>
    if digits.isEmpty = false && digits.all Char.isDigit then
      .ok (sign * (digitsToNat digits : Nat))
    else
      .error ("invalid literal for int() with base 10: '" ++ s ++ "'")

/-- The process environment: the three variables read by
`get_snow_client` via `os.getenv` (`none` = unset). -/
structure Env where
  SERVICENOW_INSTANCE_URL : Option String
  SERVICENOW_USERNAME : Option String
  SERVICENOW_PASSWORD : Option String

/-- Python truthiness of an `os.getenv` result: set and non-empty. -/
def envTruthy : Option String → Bool
  | none => false
  | some s => s != ""

/-- The `all([instance_url, username, password])` check in
`get_snow_client`. -/
def envConfigured (env : Env) : Bool :=
  envTruthy env.SERVICENOW_INSTANCE_URL
    && envTruthy env.SERVICENOW_USERNAME
    && envTruthy env.SERVICENOW_PASSWORD

/-- `ServiceNowClient.__init__` stores the trailing-slash-stripped
instance URL, the credentials, the basic-auth pair and two fixed
headers; nothing in the program ever writes these fields afterwards. -/
structure ServiceNowClient where
  instance_url : String
  username : String
  password : String
  auth : String × String
  headers : List (String × String)

/-- `ServiceNowClient(instance_url, username, password)`. -/
def ServiceNowClient.make (instanceUrl username password : String) : ServiceNowClient :=
  { instance_url := rstripSlash instanceUrl
    username := username
    password := password
    auth := (username, password)
    headers := [("Content-Type", "application/json"), ("Accept", "application/json")] }

/-- One outbound call handed to the `requests` library by
`_make_request`: the HTTP verb, the full URL, and the payload (query
parameters for GET, JSON body for POST/PUT/PATCH). -/
structure OutboundCall where
  method : String
  url : String
  payload : Option Json

/-- Outcome of the network + `raise_for_status()` + `.json()` for a
given outbound call: the decoded payload, or the message of the raised
exception. -/
abbrev Oracle := OutboundCall → Except String Json

/-- Verbs with a branch in `_make_request`. -/
def methodSupported (m : String) : Bool :=
  pyUpper m = "GET" || pyUpper m = "POST" || pyUpper m = "PUT" || pyUpper m = "PATCH"

/-- `ServiceNowClient._make_request`: build the URL, hand the call to
`requests` (the oracle) for a supported verb, and re-raise any
exception unchanged (the `except RequestException` clause only logs and
re-raises).  An unsupported verb raises `ValueError` without any
outbound call.  Returns the outcome together with the outbound calls
made. -/
def ServiceNowClient.make_request (c : ServiceNowClient) (vendor : Oracle)
    (method endpoint : String) (data : Option Json) :
    Except String Json × List OutboundCall :=
  let url := c.instance_url ++ "/api/now/" ++ endpoint
  if methodSupported method then
    let call : OutboundCall := { method := pyUpper method, url := url, payload := data }
    (vendor call, [call])
  else
    (.error ("Unsupported HTTP method: " ++ method), [])

/-- `ServiceNowClient.create_incident(short_description, **kwargs)`:
rebuild the body with `short_description` first, then the remaining
keyword arguments, and POST it to `table/incident`.  `fields` is the
handler's whole `data` dict (the call is `create_incident(**data)`). -/
def ServiceNowClient.create_incident (c : ServiceNowClient) (vendor : Oracle)
    (fields : List (String × Json)) : Except String Json × List OutboundCall :=
  let sd := (fields.lookup "short_description").getD .null
  let kwargs := fields.filter (fun p => p.1 != "short_description")
  c.make_request vendor "POST" "table/incident" (some (.obj (("short_description", sd) :: kwargs)))

/-- `ServiceNowClient.get_incident(sys_id)`. -/
def ServiceNowClient.get_incident (c : ServiceNowClient) (vendor : Oracle)
    (sys_id : String) : Except String Json × List OutboundCall :=
  c.make_request vendor "GET" ("table/incident/" ++ sys_id) none

/-- `ServiceNowClient.update_incident(sys_id, **kwargs)`. -/
def ServiceNowClient.update_incident (c : ServiceNowClient) (vendor : Oracle)
    (sys_id : String) (kwargs : List (String × Json)) : Except String Json × List OutboundCall :=
  c.make_request vendor "PATCH" ("table/incident/" ++ sys_id) (some (.obj kwargs))

/-- `ServiceNowClient.search_incidents(query, limit)`. -/
def ServiceNowClient.search_incidents (c : ServiceNowClient) (vendor : Oracle)
    (query : String) (limit : Int) : Except String Json × List OutboundCall :=
  c.make_request vendor "GET" "table/incident"
    (some (.obj [("sysparm_query", .str query), ("sysparm_limit", .num limit)]))

/-- `ServiceNowClient.get_table_records(table, query=None, limit=10)`:
`sysparm_query` is only added when `query` is truthy. -/
def ServiceNowClient.get_table_records (c : ServiceNowClient) (vendor : Oracle)
    (table : String) (query : Option String) (limit : Int) :
    Except String Json × List OutboundCall :=
  let params : List (String × Json) :=
    match query with
    | some q => if q != "" then [("sysparm_limit", .num limit), ("sysparm_query", .str q)]
                else [("sysparm_limit", .num limit)]
    | none => [("sysparm_limit", .num limit)]
  c.make_request vendor "GET" ("table/" ++ table) (some (.obj params))

/-- `ServiceNowClient.get_record(table, sys_id)`. -/
def ServiceNowClient.get_record (c : ServiceNowClient) (vendor : Oracle)
    (table sys_id : String) : Except String Json × List OutboundCall :=
  c.make_request vendor "GET" ("table/" ++ table ++ "/" ++ sys_id) none

/-- The `ValueError` message raised by `get_snow_client` when a
required environment variable is missing or empty. -/
def missingEnvMessage : String :=
  "Missing required environment variables: SERVICENOW_INSTANCE_URL, SERVICENOW_USERNAME, SERVICENOW_PASSWORD"

/-- `get_snow_client()`: return the already-constructed singleton, or
construct it from the environment, or raise `ValueError` when a
variable is missing or empty.  Returns the client together with the
updated global `snow_client`. -/
def get_snow_client (env : Env) (snow0 : Option ServiceNowClient) :
    Except String (ServiceNowClient × Option ServiceNowClient) :=
  match snow0 with
  | some c => .ok (c, some c)
  | none =>
    if envConfigured env then
      let c := ServiceNowClient.make (env.SERVICENOW_INSTANCE_URL.getD "")
        (env.SERVICENOW_USERNAME.getD "") (env.SERVICENOW_PASSWORD.getD "")
      .ok (c, some c)
    else
      .error missingEnvMessage

/-- The client `get_snow_client` constructs on first use when the
environment is configured. -/
def clientFromEnv (env : Env) : ServiceNowClient :=
  ServiceNowClient.make (env.SERVICENOW_INSTANCE_URL.getD "")
    (env.SERVICENOW_USERNAME.getD "") (env.SERVICENOW_PASSWORD.getD "")

/-- The value of the global `snow_client` after any code path that runs
`get_snow_client`: an existing singleton is kept as is, otherwise the
client is constructed from the environment when configured. -/
def nextSnow (env : Env) : Option ServiceNowClient → Option ServiceNowClient
  | some c => some c
  | none => if envConfigured env then some (clientFromEnv env) else none

/-- An inbound HTTP method as seen by Flask's router. -/
inductive HttpMethod where
  | GET
  | POST
  | PUT
  | PATCH
  | DELETE
deriving DecidableEq

/-- A decoded inbound HTTP request: method, path split into segments,
query-string parameters (`request.args`), and the JSON body as decoded
by `request.get_json()` (`none` when there is no decodable body). -/
structure Request where
  method : HttpMethod
  path : List String
  args : List (String × String)
  body : Option Json

/-- What a view function produces: HTTP status, JSON body, the
outbound vendor calls made while handling the request, and the value of
the global `snow_client` afterwards. -/
structure HandlerOut where
  status : Nat
  body : Json
  calls : List OutboundCall
  snow : Option ServiceNowClient

/-- The `{"status": "error", "error": str(e)}` body every handler's
`except Exception` clause returns with status 500. -/
def errorBody (e : String) : Json :=
  .obj [("status", .str "error"), ("error", .str e)]

/-- `int(request.args.get('limit', 10))`: 10 when the parameter is
absent, otherwise Python `int()` of the string. -/
def parseLimit (args : List (String × String)) : Except String Int :=
  match args.lookup "limit" with
  | none => .ok 10
  | some s => pyInt s

/-- `health_check` (`GET /`). -/
def health_check : HandlerOut :=
  { status := 200
    body := .obj
      [ ("status", .str "healthy")
      , ("service", .str "ServiceNow MCP Server (HTTP Wrapper)")
      , ("version", .str "1.0.0")
      , ("endpoints", .obj
          [ ("health", .str "GET /")
          , ("tools", .str "GET /mcp/tools")
          , ("resources", .str "GET /mcp/resources")
          , ("create_incident", .str "POST /mcp/incident/create")
          , ("get_incident", .str "GET /mcp/incident/<sys_id>")
          , ("update_incident", .str "PATCH /mcp/incident/<sys_id>")
          , ("search_incidents", .str "GET /mcp/incidents/search?query=<query>")
          , ("query_table", .str "GET /mcp/table/<table_name>") ]) ]
    calls := []
    snow := none }

/-- `list_tools` (`GET /mcp/tools`). -/
def list_tools : HandlerOut :=
  { status := 200
    body := .obj [("tools", .arr
      [ .obj [ ("name", .str "create_incident")
             , ("description", .str "Create a new incident in ServiceNow")
             , ("endpoint", .str "POST /mcp/incident/create") ]
      , .obj [ ("name", .str "update_incident")
             , ("description", .str "Update an existing incident")
             , ("endpoint", .str "PATCH /mcp/incident/<sys_id>") ]
      , .obj [ ("name", .str "get_incident")
             , ("description", .str "Get a specific incident by sys_id")
             , ("endpoint", .str "GET /mcp/incident/<sys_id>") ]
      , .obj [ ("name", .str "search_incidents")
             , ("description", .str "Search for incidents")
             , ("endpoint", .str "GET /mcp/incidents/search?query=<query>") ]
      , .obj [ ("name", .str "query_table")
             , ("description", .str "Query any ServiceNow table")
             , ("endpoint", .str "GET /mcp/table/<table_name>") ] ])]
    calls := []
    snow := none }

/-- `list_resources` (`GET /mcp/resources`). -/
def list_resources : HandlerOut :=
  { status := 200
    body := .obj [("resources", .arr
      [ .obj [ ("uri", .str "servicenow://incidents")
             , ("description", .str "List recent incidents")
             , ("endpoint", .str "GET /mcp/incidents") ]
      , .obj [ ("uri", .str "servicenow://incidents/{sys_id}")
             , ("description", .str "Get a specific incident")
             , ("endpoint", .str "GET /mcp/incident/<sys_id>") ]
      , .obj [ ("uri", .str "servicenow://tables/{table}")
             , ("description", .str "Get records from a specific table")
             , ("endpoint", .str "GET /mcp/table/<table_name>") ] ])]
    calls := []
    snow := none }

/-- View function `create_incident` (`POST /mcp/incident/create`).
The source fetches the client before reading or validating the body,
so a configuration failure wins over body validation.  `data.get` on a
truthy non-dict body raises (500); a dict body is splatted into
`client.create_incident(**data)`. -/
def create_incident (env : Env) (snow0 : Option ServiceNowClient) (vendor : Oracle)
    (body : Option Json) : HandlerOut :=
  match get_snow_client env snow0 with
  | .error e => { status := 500, body := errorBody e, calls := [], snow := snow0 }
  | .ok (client, snow1) =>
    match body with
    | none =>
      { status := 400, body := .obj [("error", .str "short_description is required")]
        calls := [], snow := snow1 }
    | some data =>
      if data.pyTruthy = false then
        { status := 400, body := .obj [("error", .str "short_description is required")]
          calls := [], snow := snow1 }
      else
        match data.pyGet "short_description" with
        | .error e => { status := 500, body := errorBody e, calls := [], snow := snow1 }
        | .ok sd =>
          if sd.pyTruthy = false then
            { status := 400, body := .obj [("error", .str "short_description is required")]
              calls := [], snow := snow1 }
          else
            match client.create_incident vendor data.objFields with
            | (.ok result, calls) =>
              { status := 201
                body := .obj [ ("status", .str "success")
                             , ("message", .str "Incident created successfully")
                             , ("result", result) ]
                calls := calls, snow := snow1 }
            | (.error e, calls) =>
              { status := 500, body := errorBody e, calls := calls, snow := snow1 }

/-- View function `get_incident` (`GET /mcp/incident/<sys_id>`). -/
def get_incident (env : Env) (snow0 : Option ServiceNowClient) (vendor : Oracle)
    (sys_id : String) : HandlerOut :=
  match get_snow_client env snow0 with
  | .error e => { status := 500, body := errorBody e, calls := [], snow := snow0 }
  | .ok (client, snow1) =>
    match client.get_incident vendor sys_id with
    | (.ok result, calls) =>
      { status := 200
        body := .obj [("status", .str "success"), ("result", result)]
        calls := calls, snow := snow1 }
    | (.error e, calls) =>
      { status := 500, body := errorBody e, calls := calls, snow := snow1 }

/-- View function `update_incident` (`PATCH|PUT /mcp/incident/<sys_id>`).
A truthy non-dict body reaches `update_incident(sys_id, **data)` and
raises a `TypeError` (500). -/
def update_incident (env : Env) (snow0 : Option ServiceNowClient) (vendor : Oracle)
    (sys_id : String) (body : Option Json) : HandlerOut :=
  match get_snow_client env snow0 with
  | .error e => { status := 500, body := errorBody e, calls := [], snow := snow0 }
  | .ok (client, snow1) =>
    match body with
    | none =>
      { status := 400, body := .obj [("error", .str "No update data provided")]
        calls := [], snow := snow1 }
    | some data =>
      if data.pyTruthy = false then
        { status := 400, body := .obj [("error", .str "No update data provided")]
          calls := [], snow := snow1 }
      else
        match data with
        | .obj fields =>
          match client.update_incident vendor sys_id fields with
          | (.ok result, calls) =>
            { status := 200
              body := .obj [ ("status", .str "success")
                           , ("message", .str "Incident updated successfully")
                           , ("result", result) ]
              calls := calls, snow := snow1 }
          | (.error e, calls) =>
            { status := 500, body := errorBody e, calls := calls, snow := snow1 }
        | _ =>
          { status := 500
            body := errorBody "update_incident() argument after ** must be a mapping"
            calls := [], snow := snow1 }

/-- View function `search_incidents` (`GET /mcp/incidents/search`).
The source converts `limit` with `int()` before checking that `query`
is non-empty, so an unparseable `limit` raises (500) even when `query`
is missing. -/
def search_incidents (env : Env) (snow0 : Option ServiceNowClient) (vendor : Oracle)
    (args : List (String × String)) : HandlerOut :=
  match get_snow_client env snow0 with
  | .error e => { status := 500, body := errorBody e, calls := [], snow := snow0 }
  | .ok (client, snow1) =>
    match parseLimit args with
    | .error e => { status := 500, body := errorBody e, calls := [], snow := snow1 }
    | .ok limit =>
      if (args.lookup "query").getD "" = "" then
        { status := 400, body := .obj [("error", .str "query parameter is required")]
          calls := [], snow := snow1 }
      else
        match client.search_incidents vendor ((args.lookup "query").getD "") limit with
        | (.ok result, calls) =>
          { status := 200
            body := .obj [("status", .str "success"), ("result", result)]
            calls := calls, snow := snow1 }
        | (.error e, calls) =>
          { status := 500, body := errorBody e, calls := calls, snow := snow1 }

/-- View function `list_incidents` (`GET /mcp/incidents`). -/
def list_incidents (env : Env) (snow0 : Option ServiceNowClient) (vendor : Oracle)
    (args : List (String × String)) : HandlerOut :=
  match get_snow_client env snow0 with
  | .error e => { status := 500, body := errorBody e, calls := [], snow := snow0 }
  | .ok (client, snow1) =>
    match parseLimit args with
    | .error e => { status := 500, body := errorBody e, calls := [], snow := snow1 }
    | .ok limit =>
      match client.get_table_records vendor "incident" none limit with
      | (.ok result, calls) =>
        { status := 200
          body := .obj [("status", .str "success"), ("result", result)]
          calls := calls, snow := snow1 }
      | (.error e, calls) =>
        { status := 500, body := errorBody e, calls := calls, snow := snow1 }

/-- View function `query_table` (`GET /mcp/table/<table_name>`). -/
def query_table (env : Env) (snow0 : Option ServiceNowClient) (vendor : Oracle)
    (table_name : String) (args : List (String × String)) : HandlerOut :=
  match get_snow_client env snow0 with
  | .error e => { status := 500, body := errorBody e, calls := [], snow := snow0 }
  | .ok (client, snow1) =>
    match parseLimit args with
    | .error e => { status := 500, body := errorBody e, calls := [], snow := snow1 }
    | .ok limit =>
      match client.get_table_records vendor table_name (args.lookup "query") limit with
      | (.ok result, calls) =>
        { status := 200
          body := .obj [ ("status", .str "success")
                       , ("table", .str table_name)
                       , ("result", result) ]
          calls := calls, snow := snow1 }
      | (.error e, calls) =>
        { status := 500, body := errorBody e, calls := calls, snow := snow1 }

/-- View function `get_record` (`GET /mcp/table/<table_name>/<sys_id>`). -/
def get_record (env : Env) (snow0 : Option ServiceNowClient) (vendor : Oracle)
    (table_name sys_id : String) : HandlerOut :=
  match get_snow_client env snow0 with
  | .error e => { status := 500, body := errorBody e, calls := [], snow := snow0 }
  | .ok (client, snow1) =>
    match client.get_record vendor table_name sys_id with
    | (.ok result, calls) =>
      { status := 200
        body := .obj [ ("status", .str "success")
                     , ("table", .str table_name)
                     , ("result", result) ]
        calls := calls, snow := snow1 }
    | (.error e, calls) =>
      { status := 500, body := errorBody e, calls := calls, snow := snow1 }

/-- The `@app.errorhandler(404)` response: no URL rule matches the
request path. -/
def not_found (snow0 : Option ServiceNowClient) : HandlerOut :=
  { status := 404
    body := .obj [ ("error", .str "Endpoint not found")
                 , ("message", .str "Please check the API documentation at GET /") ]
    calls := []
    snow := snow0 }

/-- Flask's default 405 Method Not Allowed response (a rule matches the
path but not the method; the app registers no handler for 405, so the
body is Flask's default error page, abstracted here). -/
def method_not_allowed (snow0 : Option ServiceNowClient) : HandlerOut :=
  { status := 405, body := .str "Method Not Allowed", calls := [], snow := snow0 }

/-- Does the request path match some registered URL rule (regardless of
method)?  Mirrors the eight path patterns of the app's routes.  Flask
raises 404 exactly when this is false, and 405 when it is true but the
method is not allowed by any rule matching the path. -/
def pathMatches : List String → Bool
  | [] => true
  | ["mcp", "tools"] => true
  | ["mcp", "resources"] => true
  | ["mcp", "incident", _] => true
  | ["mcp", "incidents"] => true
  | ["mcp", "incidents", "search"] => true
  | ["mcp", "table", _] => true
  | ["mcp", "table", _, _] => true
  | _ => false

/-- Flask URL dispatch for the application: match the path against the
registered rules, then pick the view by method.  `/mcp/incident/create`
is a static rule for POST only; for other methods the dynamic rule
`/mcp/incident/<sys_id>` matches with `sys_id = "create"`, exactly as
in Flask's URL map. -/
def dispatch (env : Env) (snow0 : Option ServiceNowClient) (vendor : Oracle)
    (req : Request) : HandlerOut :=
  match req.path with
  | [] =>
    match req.method with
    | .GET => { health_check with snow := snow0 }
    | _ => method_not_allowed snow0
  | ["mcp", "tools"] =>
    match req.method with
    | .GET => { list_tools with snow := snow0 }
    | _ => method_not_allowed snow0
  | ["mcp", "resources"] =>
    match req.method with
    | .GET => { list_resources with snow := snow0 }
    | _ => method_not_allowed snow0
  | ["mcp", "incident", "create"] =>
    match req.method with
    | .POST => create_incident env snow0 vendor req.body
    | .GET => get_incident env snow0 vendor "create"
    | .PATCH => update_incident env snow0 vendor "create" req.body
    | .PUT => update_incident env snow0 vendor "create" req.body
    | _ => method_not_allowed snow0
  | ["mcp", "incident", sys_id] =>
    match req.method with
    | .GET => get_incident env snow0 vendor sys_id
    | .PATCH => update_incident env snow0 vendor sys_id req.body
    | .PUT => update_incident env snow0 vendor sys_id req.body
    | _ => method_not_allowed snow0
  | ["mcp", "incidents"] =>
    match req.method with
    | .GET => list_incidents env snow0 vendor req.args
    | _ => method_not_allowed snow0
  | ["mcp", "incidents", "search"] =>
    match req.method with
    | .GET => search_incidents env snow0 vendor req.args
    | _ => method_not_allowed snow0
  | ["mcp", "table", table_name] =>
    match req.method with
    | .GET => query_table env snow0 vendor table_name req.args
    | _ => method_not_allowed snow0
  | ["mcp", "table", table_name, sys_id] =>
    match req.method with
    | .GET => get_record env snow0 vendor table_name sys_id
    | _ => method_not_allowed snow0
  | _ => not_found snow0

/-- The outbound call `create_incident(**data)` produces. -/
def createIncidentCall (c : ServiceNowClient) (fields : List (String × Json)) : OutboundCall :=
  { method := "POST"
    url := c.instance_url ++ "/api/now/" ++ "table/incident"
    payload := some (.obj (("short_description", (fields.lookup "short_description").getD .null)
      :: fields.filter (fun p => p.1 != "short_description"))) }

/-- The outbound call `get_incident(sys_id)` produces. -/
def getIncidentCall (c : ServiceNowClient) (sys_id : String) : OutboundCall :=
  { method := "GET", url := c.instance_url ++ "/api/now/" ++ ("table/incident/" ++ sys_id)
    payload := none }

/-- The outbound call `update_incident(sys_id, **kwargs)` produces. -/
def updateIncidentCall (c : ServiceNowClient) (sys_id : String)
    (kwargs : List (String × Json)) : OutboundCall :=
  { method := "PATCH", url := c.instance_url ++ "/api/now/" ++ ("table/incident/" ++ sys_id)
    payload := some (.obj kwargs) }

/-- The outbound call `search_incidents(query, limit)` produces:
the caller's query as `sysparm_query`, the limit as `sysparm_limit`. -/
def searchIncidentsCall (c : ServiceNowClient) (query : String) (limit : Int) : OutboundCall :=
  { method := "GET", url := c.instance_url ++ "/api/now/" ++ "table/incident"
    payload := some (.obj [("sysparm_query", .str query), ("sysparm_limit", .num limit)]) }

/-- The outbound call `get_table_records(table, query, limit)` produces. -/
def tableRecordsCall (c : ServiceNowClient) (table : String) (query : Option String)
    (limit : Int) : OutboundCall :=
  { method := "GET", url := c.instance_url ++ "/api/now/" ++ ("table/" ++ table)
    payload := some (.obj (match query with
      | some q => if q != "" then [("sysparm_limit", .num limit), ("sysparm_query", .str q)]
                  else [("sysparm_limit", .num limit)]
      | none => [("sysparm_limit", .num limit)])) }

/-- The outbound call `get_record(table, sys_id)` produces. -/
def getRecordCall (c : ServiceNowClient) (table sys_id : String) : OutboundCall :=
  { method := "GET", url := c.instance_url ++ "/api/now/" ++ ("table/" ++ table ++ "/" ++ sys_id)
    payload := none }

/-- Success envelope of `get_incident`, `search_incidents` and
`list_incidents`. -/
def successBody (r : Json) : Json :=
  .obj [("status", .str "success"), ("result", r)]

/-- Success envelope of `create_incident`. -/
def createSuccessBody (r : Json) : Json :=
  .obj [("status", .str "success"), ("message", .str "Incident created successfully"), ("result", r)]

/-- Success envelope of `update_incident`. -/
def updateSuccessBody (r : Json) : Json :=
  .obj [("status", .str "success"), ("message", .str "Incident updated successfully"), ("result", r)]

/-- Success envelope of `query_table` and `get_record`. -/
def tableSuccessBody (t : String) (r : Json) : Json :=
  .obj [("status", .str "success"), ("table", .str t), ("result", r)]

/-- The `{"error": msg}` body of the 400 validation responses (note:
no `status` field). -/
def validationBody (msg : String) : Json :=
  .obj [("error", .str msg)]

/-! ### Lemmas about the embedded application -/

lemma get_snow_client_ok_snow {env : Env} {snow0 : Option ServiceNowClient}
    {c : ServiceNowClient} {s1 : Option ServiceNowClient}
    (h : get_snow_client env snow0 = .ok (c, s1)) : s1 = nextSnow env snow0 := by
  cases snow0 with
  | some c0 => simp [get_snow_client] at h; simp [nextSnow, h.2]
  | none =>
    simp only [get_snow_client] at h
    split at h
    · rename_i hc
      simp at h
      rw [nextSnow, if_pos hc]
      exact h.2.symm
    · simp at h

lemma get_snow_client_error {env : Env} {snow0 : Option ServiceNowClient} {e : String}
    (h : get_snow_client env snow0 = .error e) :
    snow0 = none ∧ envConfigured env = false ∧ nextSnow env snow0 = none ∧ e = missingEnvMessage := by
  cases snow0 with
  | some c0 => simp [get_snow_client] at h
  | none =>
    simp only [get_snow_client] at h
    split at h <;> simp_all [nextSnow]

lemma client_create_incident_eq (c : ServiceNowClient) (vendor : Oracle)
    (fields : List (String × Json)) :
    c.create_incident vendor fields =
      (vendor (createIncidentCall c fields), [createIncidentCall c fields]) := rfl

lemma client_get_incident_eq (c : ServiceNowClient) (vendor : Oracle) (sys_id : String) :
    c.get_incident vendor sys_id =
      (vendor (getIncidentCall c sys_id), [getIncidentCall c sys_id]) := rfl

lemma client_update_incident_eq (c : ServiceNowClient) (vendor : Oracle) (sys_id : String)
    (kwargs : List (String × Json)) :
    c.update_incident vendor sys_id kwargs =
      (vendor (updateIncidentCall c sys_id kwargs), [updateIncidentCall c sys_id kwargs]) := rfl

lemma client_search_incidents_eq (c : ServiceNowClient) (vendor : Oracle)
    (query : String) (limit : Int) :
    c.search_incidents vendor query limit =
      (vendor (searchIncidentsCall c query limit), [searchIncidentsCall c query limit]) := rfl

lemma client_get_table_records_eq (c : ServiceNowClient) (vendor : Oracle)
    (table : String) (query : Option String) (limit : Int) :
    c.get_table_records vendor table query limit =
      (vendor (tableRecordsCall c table query limit), [tableRecordsCall c table query limit]) := rfl

lemma client_get_record_eq (c : ServiceNowClient) (vendor : Oracle) (table sys_id : String) :
    c.get_record vendor table sys_id =
      (vendor (getRecordCall c table sys_id), [getRecordCall c table sys_id]) := rfl

lemma create_incident_snow (env : Env) (snow0 : Option ServiceNowClient) (vendor : Oracle)
    (body : Option Json) :
    (create_incident env snow0 vendor body).snow = nextSnow env snow0 := by
  unfold create_incident
  rcases hg : get_snow_client env snow0 with e | ⟨c, s1⟩
  · obtain ⟨h0, _, hn, _⟩ := get_snow_client_error hg
    subst h0
    simpa using hn.symm
  · have hs := get_snow_client_ok_snow hg
    subst hs
    repeat' split
    all_goals simp_all

lemma get_incident_snow (env : Env) (snow0 : Option ServiceNowClient) (vendor : Oracle)
    (sys_id : String) :
    (get_incident env snow0 vendor sys_id).snow = nextSnow env snow0 := by
  unfold get_incident
  rcases hg : get_snow_client env snow0 with e | ⟨c, s1⟩
  · obtain ⟨h0, _, hn, _⟩ := get_snow_client_error hg
    subst h0
    simpa using hn.symm
  · have hs := get_snow_client_ok_snow hg
    subst hs
    repeat' split
    all_goals simp_all

lemma update_incident_snow (env : Env) (snow0 : Option ServiceNowClient) (vendor : Oracle)
    (sys_id : String) (body : Option Json) :
    (update_incident env snow0 vendor sys_id body).snow = nextSnow env snow0 := by
  unfold update_incident
  rcases hg : get_snow_client env snow0 with e | ⟨c, s1⟩
  · obtain ⟨h0, _, hn, _⟩ := get_snow_client_error hg
    subst h0
    simpa using hn.symm
  · have hs := get_snow_client_ok_snow hg
    subst hs
    repeat' split
    all_goals simp_all

lemma search_incidents_snow (env : Env) (snow0 : Option ServiceNowClient) (vendor : Oracle)
    (args : List (String × String)) :
    (search_incidents env snow0 vendor args).snow = nextSnow env snow0 := by
  unfold search_incidents
  rcases hg : get_snow_client env snow0 with e | ⟨c, s1⟩
  · obtain ⟨h0, _, hn, _⟩ := get_snow_client_error hg
    subst h0
    simpa using hn.symm
  · have hs := get_snow_client_ok_snow hg
    subst hs
    repeat' split
    all_goals simp_all

lemma list_incidents_snow (env : Env) (snow0 : Option ServiceNowClient) (vendor : Oracle)
    (args : List (String × String)) :
    (list_incidents env snow0 vendor args).snow = nextSnow env snow0 := by
  unfold list_incidents
  rcases hg : get_snow_client env snow0 with e | ⟨c, s1⟩
  · obtain ⟨h0, _, hn, _⟩ := get_snow_client_error hg
    subst h0
    simpa using hn.symm
  · have hs := get_snow_client_ok_snow hg
    subst hs
    repeat' split
    all_goals simp_all

lemma query_table_snow (env : Env) (snow0 : Option ServiceNowClient) (vendor : Oracle)
    (table_name : String) (args : List (String × String)) :
    (query_table env snow0 vendor table_name args).snow = nextSnow env snow0 := by
  unfold query_table
  rcases hg : get_snow_client env snow0 with e | ⟨c, s1⟩
  · obtain ⟨h0, _, hn, _⟩ := get_snow_client_error hg
    subst h0
    simpa using hn.symm
  · have hs := get_snow_client_ok_snow hg
    subst hs
    repeat' split
    all_goals simp_all

lemma get_record_snow (env : Env) (snow0 : Option ServiceNowClient) (vendor : Oracle)
    (table_name sys_id : String) :
    (get_record env snow0 vendor table_name sys_id).snow = nextSnow env snow0 := by
  unfold get_record
  rcases hg : get_snow_client env snow0 with e | ⟨c, s1⟩
  · obtain ⟨h0, _, hn, _⟩ := get_snow_client_error hg
    subst h0
    simpa using hn.symm
  · have hs := get_snow_client_ok_snow hg
    subst hs
    repeat' split
    all_goals simp_all

/-- Wrap-up of `create_incident`'s interaction with the vendor: if the
handler made an outbound call, the response wraps that call's outcome
in the success or error envelope. -/
lemma create_incident_calls_spec (env : Env) (snow0 : Option ServiceNowClient)
    (vendor : Oracle) (body : Option Json) (call : OutboundCall)
    (hcall : (create_incident env snow0 vendor body).calls = [call]) :
    (∀ r, vendor call = .ok r →
      (create_incident env snow0 vendor body).status = 201 ∧
      (create_incident env snow0 vendor body).body = createSuccessBody r) ∧
    (∀ e, vendor call = .error e →
      (create_incident env snow0 vendor body).status = 500 ∧
      (create_incident env snow0 vendor body).body = errorBody e) := by
  unfold create_incident at hcall ⊢
  revert hcall
  rcases hg : get_snow_client env snow0 with e0 | ⟨c, s1⟩
  · intro hcall; simp at hcall
  · repeat' split
    all_goals intro hcall
    all_goals try simp at hcall
    all_goals rename_i heq
    all_goals rw [client_create_incident_eq] at heq
    all_goals simp only [Prod.mk.injEq] at heq
    all_goals obtain ⟨hvres, hcs⟩ := heq
    all_goals rw [← hcs] at hcall
    all_goals simp at hcall
    all_goals rw [hcall] at hvres
    all_goals constructor <;> intro v hv <;> rw [hv] at hvres <;>
      simp_all [createSuccessBody, errorBody]

/-- Wrap-up of `get_incident`'s interaction with the vendor. -/
lemma get_incident_calls_spec (env : Env) (snow0 : Option ServiceNowClient)
    (vendor : Oracle) (sys_id : String) (call : OutboundCall)
    (hcall : (get_incident env snow0 vendor sys_id).calls = [call]) :
    (∀ r, vendor call = .ok r →
      (get_incident env snow0 vendor sys_id).status = 200 ∧
      (get_incident env snow0 vendor sys_id).body = successBody r) ∧
    (∀ e, vendor call = .error e →
      (get_incident env snow0 vendor sys_id).status = 500 ∧
      (get_incident env snow0 vendor sys_id).body = errorBody e) := by
  unfold get_incident at hcall ⊢
  revert hcall
  rcases hg : get_snow_client env snow0 with e0 | ⟨c, s1⟩
  · intro hcall; simp at hcall
  · repeat' split
    all_goals intro hcall
    all_goals try simp at hcall
    all_goals rename_i heq
    all_goals rw [client_get_incident_eq] at heq
    all_goals simp only [Prod.mk.injEq] at heq
    all_goals obtain ⟨hvres, hcs⟩ := heq
    all_goals rw [← hcs] at hcall
    all_goals simp at hcall
    all_goals rw [hcall] at hvres
    all_goals constructor <;> intro v hv <;> rw [hv] at hvres <;>
      simp_all [successBody, errorBody]

/-- Wrap-up of `update_incident`'s interaction with the vendor. -/
lemma update_incident_calls_spec (env : Env) (snow0 : Option ServiceNowClient)
    (vendor : Oracle) (sys_id : String) (body : Option Json) (call : OutboundCall)
    (hcall : (update_incident env snow0 vendor sys_id body).calls = [call]) :
    (∀ r, vendor call = .ok r →
      (update_incident env snow0 vendor sys_id body).status = 200 ∧
      (update_incident env snow0 vendor sys_id body).body = updateSuccessBody r) ∧
    (∀ e, vendor call = .error e →
      (update_incident env snow0 vendor sys_id body).status = 500 ∧
      (update_incident env snow0 vendor sys_id body).body = errorBody e) := by
  unfold update_incident at hcall ⊢
  revert hcall
  rcases hg : get_snow_client env snow0 with e0 | ⟨c, s1⟩
  · intro hcall; simp at hcall
  · repeat' split
    all_goals intro hcall
    all_goals try simp at hcall
    all_goals rename_i heq
    all_goals rw [client_update_incident_eq] at heq
    all_goals simp only [Prod.mk.injEq] at heq
    all_goals obtain ⟨hvres, hcs⟩ := heq
    all_goals rw [← hcs] at hcall
    all_goals simp at hcall
    all_goals rw [hcall] at hvres
    all_goals constructor <;> intro v hv <;> rw [hv] at hvres <;>
      simp_all [updateSuccessBody, errorBody]

/-- Wrap-up of `search_incidents`'s interaction with the vendor. -/
lemma search_incidents_calls_spec (env : Env) (snow0 : Option ServiceNowClient)
    (vendor : Oracle) (args : List (String × String)) (call : OutboundCall)
    (hcall : (search_incidents env snow0 vendor args).calls = [call]) :
    (∀ r, vendor call = .ok r →
      (search_incidents env snow0 vendor args).status = 200 ∧
      (search_incidents env snow0 vendor args).body = successBody r) ∧
    (∀ e, vendor call = .error e →
      (search_incidents env snow0 vendor args).status = 500 ∧
      (search_incidents env snow0 vendor args).body = errorBody e) := by
  unfold search_incidents at hcall ⊢
  revert hcall
  rcases hg : get_snow_client env snow0 with e0 | ⟨c, s1⟩
  · intro hcall; simp at hcall
  · repeat' split
    all_goals intro hcall
    all_goals try simp at hcall
    all_goals rename_i heq
    all_goals rw [client_search_incidents_eq] at heq
    all_goals simp only [Prod.mk.injEq] at heq
    all_goals obtain ⟨hvres, hcs⟩ := heq
    all_goals rw [← hcs] at hcall
    all_goals simp at hcall
    all_goals rw [hcall] at hvres
    all_goals constructor <;> intro v hv <;> rw [hv] at hvres <;>
      simp_all [successBody, errorBody]

/-- Wrap-up of `list_incidents`'s interaction with the vendor. -/
lemma list_incidents_calls_spec (env : Env) (snow0 : Option ServiceNowClient)
    (vendor : Oracle) (args : List (String × String)) (call : OutboundCall)
    (hcall : (list_incidents env snow0 vendor args).calls = [call]) :
    (∀ r, vendor call = .ok r →
      (list_incidents env snow0 vendor args).status = 200 ∧
      (list_incidents env snow0 vendor args).body = successBody r) ∧
    (∀ e, vendor call = .error e →
      (list_incidents env snow0 vendor args).status = 500 ∧
      (list_incidents env snow0 vendor args).body = errorBody e) := by
  unfold list_incidents at hcall ⊢
  revert hcall
  rcases hg : get_snow_client env snow0 with e0 | ⟨c, s1⟩
  · intro hcall; simp at hcall
  · repeat' split
    all_goals intro hcall
    all_goals try simp at hcall
    all_goals rename_i heq
    all_goals rw [client_get_table_records_eq] at heq
    all_goals simp only [Prod.mk.injEq] at heq
    all_goals obtain ⟨hvres, hcs⟩ := heq
    all_goals rw [← hcs] at hcall
    all_goals simp at hcall
    all_goals rw [hcall] at hvres
    all_goals constructor <;> intro v hv <;> rw [hv] at hvres <;>
      simp_all [successBody, errorBody]

/-- Wrap-up of `query_table`'s interaction with the vendor. -/
lemma query_table_calls_spec (env : Env) (snow0 : Option ServiceNowClient)
    (vendor : Oracle) (table_name : String) (args : List (String × String)) (call : OutboundCall)
    (hcall : (query_table env snow0 vendor table_name args).calls = [call]) :
    (∀ r, vendor call = .ok r →
      (query_table env snow0 vendor table_name args).status = 200 ∧
      (query_table env snow0 vendor table_name args).body = tableSuccessBody table_name r) ∧
    (∀ e, vendor call = .error e →
      (query_table env snow0 vendor table_name args).status = 500 ∧
      (query_table env snow0 vendor table_name args).body = errorBody e) := by
  unfold query_table at hcall ⊢
  revert hcall
  rcases hg : get_snow_client env snow0 with e0 | ⟨c, s1⟩
  · intro hcall; simp at hcall
  · repeat' split
    all_goals intro hcall
    all_goals try simp at hcall
    all_goals rename_i heq
    all_goals rw [client_get_table_records_eq] at heq
    all_goals simp only [Prod.mk.injEq] at heq
    all_goals obtain ⟨hvres, hcs⟩ := heq
    all_goals rw [← hcs] at hcall
    all_goals simp at hcall
    all_goals rw [hcall] at hvres
    all_goals constructor <;> intro v hv <;> rw [hv] at hvres <;>
      simp_all [tableSuccessBody, errorBody]

/-- Wrap-up of `get_record`'s interaction with the vendor. -/
lemma get_record_calls_spec (env : Env) (snow0 : Option ServiceNowClient)
    (vendor : Oracle) (table_name sys_id : String) (call : OutboundCall)
    (hcall : (get_record env snow0 vendor table_name sys_id).calls = [call]) :
    (∀ r, vendor call = .ok r →
      (get_record env snow0 vendor table_name sys_id).status = 200 ∧
      (get_record env snow0 vendor table_name sys_id).body = tableSuccessBody table_name r) ∧
    (∀ e, vendor call = .error e →
      (get_record env snow0 vendor table_name sys_id).status = 500 ∧
      (get_record env snow0 vendor table_name sys_id).body = errorBody e) := by
  unfold get_record at hcall ⊢
  revert hcall
  rcases hg : get_snow_client env snow0 with e0 | ⟨c, s1⟩
  · intro hcall; simp at hcall
  · repeat' split
    all_goals intro hcall
    all_goals try simp at hcall
    all_goals rename_i heq
    all_goals rw [client_get_record_eq] at heq
    all_goals simp only [Prod.mk.injEq] at heq
    all_goals obtain ⟨hvres, hcs⟩ := heq
    all_goals rw [← hcs] at hcall
    all_goals simp at hcall
    all_goals rw [hcall] at hvres
    all_goals constructor <;> intro v hv <;> rw [hv] at hvres <;>
      simp_all [tableSuccessBody, errorBody]

lemma create_incident_400 (env : Env) (snow0 : Option ServiceNowClient) (vendor : Oracle)
    (body : Option Json) (h : (create_incident env snow0 vendor body).status = 400) :
    ∃ msg, (create_incident env snow0 vendor body).body = validationBody msg := by
  unfold create_incident at h ⊢
  revert h
  rcases hg : get_snow_client env snow0 with e0 | ⟨c, s1⟩
  · intro h; simp at h
  · repeat' split
    all_goals intro h
    all_goals first
      | exact ⟨_, rfl⟩
      | simp at h

lemma get_incident_400 (env : Env) (snow0 : Option ServiceNowClient) (vendor : Oracle)
    (sys_id : String) (h : (get_incident env snow0 vendor sys_id).status = 400) :
    ∃ msg, (get_incident env snow0 vendor sys_id).body = validationBody msg := by
  unfold get_incident at h ⊢
  revert h
  rcases hg : get_snow_client env snow0 with e0 | ⟨c, s1⟩
  · intro h; simp at h
  · repeat' split
    all_goals intro h
    all_goals first
      | exact ⟨_, rfl⟩
      | simp at h

lemma update_incident_400 (env : Env) (snow0 : Option ServiceNowClient) (vendor : Oracle)
    (sys_id : String) (body : Option Json)
    (h : (update_incident env snow0 vendor sys_id body).status = 400) :
    ∃ msg, (update_incident env snow0 vendor sys_id body).body = validationBody msg := by
  unfold update_incident at h ⊢
  revert h
  rcases hg : get_snow_client env snow0 with e0 | ⟨c, s1⟩
  · intro h; simp at h
  · repeat' split
    all_goals intro h
    all_goals first
      | exact ⟨_, rfl⟩
      | simp at h

lemma search_incidents_400 (env : Env) (snow0 : Option ServiceNowClient) (vendor : Oracle)
    (args : List (String × String))
    (h : (search_incidents env snow0 vendor args).status = 400) :
    ∃ msg, (search_incidents env snow0 vendor args).body = validationBody msg := by
  unfold search_incidents at h ⊢
  revert h
  rcases hg : get_snow_client env snow0 with e0 | ⟨c, s1⟩
  · intro h; simp at h
  · repeat' split
    all_goals intro h
    all_goals first
      | exact ⟨_, rfl⟩
      | simp at h

lemma list_incidents_400 (env : Env) (snow0 : Option ServiceNowClient) (vendor : Oracle)
    (args : List (String × String))
    (h : (list_incidents env snow0 vendor args).status = 400) :
    ∃ msg, (list_incidents env snow0 vendor args).body = validationBody msg := by
  unfold list_incidents at h ⊢
  revert h
  rcases hg : get_snow_client env snow0 with e0 | ⟨c, s1⟩
  · intro h; simp at h
  · repeat' split
    all_goals intro h
    all_goals first
      | exact ⟨_, rfl⟩
      | simp at h

lemma query_table_400 (env : Env) (snow0 : Option ServiceNowClient) (vendor : Oracle)
    (table_name : String) (args : List (String × String))
    (h : (query_table env snow0 vendor table_name args).status = 400) :
    ∃ msg, (query_table env snow0 vendor table_name args).body = validationBody msg := by
  unfold query_table at h ⊢
  revert h
  rcases hg : get_snow_client env snow0 with e0 | ⟨c, s1⟩
  · intro h; simp at h
  · repeat' split
    all_goals intro h
    all_goals first
      | exact ⟨_, rfl⟩
      | simp at h

lemma get_record_400 (env : Env) (snow0 : Option ServiceNowClient) (vendor : Oracle)
    (table_name sys_id : String)
    (h : (get_record env snow0 vendor table_name sys_id).status = 400) :
    ∃ msg, (get_record env snow0 vendor table_name sys_id).body = validationBody msg := by
  unfold get_record at h ⊢
  revert h
  rcases hg : get_snow_client env snow0 with e0 | ⟨c, s1⟩
  · intro h; simp at h
  · repeat' split
    all_goals intro h
    all_goals first
      | exact ⟨_, rfl⟩
      | simp at h

lemma create_incident_envelope (env : Env) (snow0 : Option ServiceNowClient) (vendor : Oracle)
    (body : Option Json) (call : OutboundCall)
    (hcall : (create_incident env snow0 vendor body).calls = [call]) :
    (∀ r, vendor call = .ok r →
      (create_incident env snow0 vendor body).body.lookup "status" = some (.str "success") ∧
      (create_incident env snow0 vendor body).body.lookup "result" = some r) ∧
    (∀ e, vendor call = .error e →
      (create_incident env snow0 vendor body).status = 500 ∧
      (create_incident env snow0 vendor body).body.lookup "status" = some (.str "error") ∧
      (create_incident env snow0 vendor body).body.lookup "error" = some (.str e)) := by
  obtain ⟨hok, herr⟩ := create_incident_calls_spec env snow0 vendor body call hcall
  refine ⟨fun r hr => ?_, fun e he => ?_⟩
  · obtain ⟨h1, h2⟩ := hok r hr
    rw [h2]
    exact ⟨rfl, rfl⟩
  · obtain ⟨h1, h2⟩ := herr e he
    rw [h2]
    exact ⟨h1, rfl, rfl⟩

lemma get_incident_envelope (env : Env) (snow0 : Option ServiceNowClient) (vendor : Oracle)
    (sys_id : String) (call : OutboundCall)
    (hcall : (get_incident env snow0 vendor sys_id).calls = [call]) :
    (∀ r, vendor call = .ok r →
      (get_incident env snow0 vendor sys_id).body.lookup "status" = some (.str "success") ∧
      (get_incident env snow0 vendor sys_id).body.lookup "result" = some r) ∧
    (∀ e, vendor call = .error e →
      (get_incident env snow0 vendor sys_id).status = 500 ∧
      (get_incident env snow0 vendor sys_id).body.lookup "status" = some (.str "error") ∧
      (get_incident env snow0 vendor sys_id).body.lookup "error" = some (.str e)) := by
  obtain ⟨hok, herr⟩ := get_incident_calls_spec env snow0 vendor sys_id call hcall
  refine ⟨fun r hr => ?_, fun e he => ?_⟩
  · obtain ⟨h1, h2⟩ := hok r hr
    rw [h2]
    exact ⟨rfl, rfl⟩
  · obtain ⟨h1, h2⟩ := herr e he
    rw [h2]
    exact ⟨h1, rfl, rfl⟩

lemma update_incident_envelope (env : Env) (snow0 : Option ServiceNowClient) (vendor : Oracle)
    (sys_id : String) (body : Option Json) (call : OutboundCall)
    (hcall : (update_incident env snow0 vendor sys_id body).calls = [call]) :
    (∀ r, vendor call = .ok r →
      (update_incident env snow0 vendor sys_id body).body.lookup "status" = some (.str "success") ∧
      (update_incident env snow0 vendor sys_id body).body.lookup "result" = some r) ∧
    (∀ e, vendor call = .error e →
      (update_incident env snow0 vendor sys_id body).status = 500 ∧
      (update_incident env snow0 vendor sys_id body).body.lookup "status" = some (.str "error") ∧
      (update_incident env snow0 vendor sys_id body).body.lookup "error" = some (.str e)) := by
  obtain ⟨hok, herr⟩ := update_incident_calls_spec env snow0 vendor sys_id body call hcall
  refine ⟨fun r hr => ?_, fun e he => ?_⟩
  · obtain ⟨h1, h2⟩ := hok r hr
    rw [h2]
    exact ⟨rfl, rfl⟩
  · obtain ⟨h1, h2⟩ := herr e he
    rw [h2]
    exact ⟨h1, rfl, rfl⟩

lemma search_incidents_envelope (env : Env) (snow0 : Option ServiceNowClient) (vendor : Oracle)
    (args : List (String × String)) (call : OutboundCall)
    (hcall : (search_incidents env snow0 vendor args).calls = [call]) :
    (∀ r, vendor call = .ok r →
      (search_incidents env snow0 vendor args).body.lookup "status" = some (.str "success") ∧
      (search_incidents env snow0 vendor args).body.lookup "result" = some r) ∧
    (∀ e, vendor call = .error e →
      (search_incidents env snow0 vendor args).status = 500 ∧
      (search_incidents env snow0 vendor args).body.lookup "status" = some (.str "error") ∧
      (search_incidents env snow0 vendor args).body.lookup "error" = some (.str e)) := by
  obtain ⟨hok, herr⟩ := search_incidents_calls_spec env snow0 vendor args call hcall
  refine ⟨fun r hr => ?_, fun e he => ?_⟩
  · obtain ⟨h1, h2⟩ := hok r hr
    rw [h2]
    exact ⟨rfl, rfl⟩
  · obtain ⟨h1, h2⟩ := herr e he
    rw [h2]
    exact ⟨h1, rfl, rfl⟩

lemma list_incidents_envelope (env : Env) (snow0 : Option ServiceNowClient) (vendor : Oracle)
    (args : List (String × String)) (call : OutboundCall)
    (hcall : (list_incidents env snow0 vendor args).calls = [call]) :
    (∀ r, vendor call = .ok r →
      (list_incidents env snow0 vendor args).body.lookup "status" = some (.str "success") ∧
      (list_incidents env snow0 vendor args).body.lookup "result" = some r) ∧
    (∀ e, vendor call = .error e →
      (list_incidents env snow0 vendor args).status = 500 ∧
      (list_incidents env snow0 vendor args).body.lookup "status" = some (.str "error") ∧
      (list_incidents env snow0 vendor args).body.lookup "error" = some (.str e)) := by
  obtain ⟨hok, herr⟩ := list_incidents_calls_spec env snow0 vendor args call hcall
  refine ⟨fun r hr => ?_, fun e he => ?_⟩
  · obtain ⟨h1, h2⟩ := hok r hr
    rw [h2]
    exact ⟨rfl, rfl⟩
  · obtain ⟨h1, h2⟩ := herr e he
    rw [h2]
    exact ⟨h1, rfl, rfl⟩

lemma query_table_envelope (env : Env) (snow0 : Option ServiceNowClient) (vendor : Oracle)
    (table_name : String) (args : List (String × String)) (call : OutboundCall)
    (hcall : (query_table env snow0 vendor table_name args).calls = [call]) :
    (∀ r, vendor call = .ok r →
      (query_table env snow0 vendor table_name args).body.lookup "status" = some (.str "success") ∧
      (query_table env snow0 vendor table_name args).body.lookup "result" = some r) ∧
    (∀ e, vendor call = .error e →
      (query_table env snow0 vendor table_name args).status = 500 ∧
      (query_table env snow0 vendor table_name args).body.lookup "status" = some (.str "error") ∧
      (query_table env snow0 vendor table_name args).body.lookup "error" = some (.str e)) := by
  obtain ⟨hok, herr⟩ := query_table_calls_spec env snow0 vendor table_name args call hcall
  refine ⟨fun r hr => ?_, fun e he => ?_⟩
  · obtain ⟨h1, h2⟩ := hok r hr
    rw [h2]
    exact ⟨rfl, rfl⟩
  · obtain ⟨h1, h2⟩ := herr e he
    rw [h2]
    exact ⟨h1, rfl, rfl⟩

lemma get_record_envelope (env : Env) (snow0 : Option ServiceNowClient) (vendor : Oracle)
    (table_name sys_id : String) (call : OutboundCall)
    (hcall : (get_record env snow0 vendor table_name sys_id).calls = [call]) :
    (∀ r, vendor call = .ok r →
      (get_record env snow0 vendor table_name sys_id).body.lookup "status" = some (.str "success") ∧
      (get_record env snow0 vendor table_name sys_id).body.lookup "result" = some r) ∧
    (∀ e, vendor call = .error e →
      (get_record env snow0 vendor table_name sys_id).status = 500 ∧
      (get_record env snow0 vendor table_name sys_id).body.lookup "status" = some (.str "error") ∧
      (get_record env snow0 vendor table_name sys_id).body.lookup "error" = some (.str e)) := by
  obtain ⟨hok, herr⟩ := get_record_calls_spec env snow0 vendor table_name sys_id call hcall
  refine ⟨fun r hr => ?_, fun e he => ?_⟩
  · obtain ⟨h1, h2⟩ := hok r hr
    rw [h2]
    exact ⟨rfl, rfl⟩
  · obtain ⟨h1, h2⟩ := herr e he
    rw [h2]
    exact ⟨h1, rfl, rfl⟩

/-- The application never swaps an existing singleton: dispatching any
request leaves `snow_client` either untouched or lazily initialised
from the environment. -/
lemma dispatch_snow (env : Env) (snow0 : Option ServiceNowClient) (vendor : Oracle)
    (req : Request) :
    (dispatch env snow0 vendor req).snow = snow0 ∨
    (dispatch env snow0 vendor req).snow = nextSnow env snow0 := by
  unfold dispatch
  repeat' split
  all_goals first
    | exact Or.inl rfl
    | exact Or.inr (create_incident_snow _ _ _ _)
    | exact Or.inr (get_incident_snow _ _ _ _)
    | exact Or.inr (update_incident_snow _ _ _ _ _)
    | exact Or.inr (search_incidents_snow _ _ _ _)
    | exact Or.inr (list_incidents_snow _ _ _ _)
    | exact Or.inr (query_table_snow _ _ _ _ _)
    | exact Or.inr (get_record_snow _ _ _ _ _)

/-- Envelope of every route that made an outbound call: the response
wraps the call's outcome as `status`/`result` on success and as a 500
with `status`/`error` on failure. -/
lemma dispatch_envelope (env : Env) (snow0 : Option ServiceNowClient) (vendor : Oracle)
    (req : Request) (call : OutboundCall)
    (hcall : (dispatch env snow0 vendor req).calls = [call]) :
    (∀ r, vendor call = .ok r →
      (dispatch env snow0 vendor req).body.lookup "status" = some (.str "success") ∧
      (dispatch env snow0 vendor req).body.lookup "result" = some r) ∧
    (∀ e, vendor call = .error e →
      (dispatch env snow0 vendor req).status = 500 ∧
      (dispatch env snow0 vendor req).body.lookup "status" = some (.str "error") ∧
      (dispatch env snow0 vendor req).body.lookup "error" = some (.str e)) := by
  unfold dispatch at hcall ⊢
  revert hcall
  repeat' split
  all_goals intro hcall
  all_goals first
    | simp [health_check, list_tools, list_resources, not_found, method_not_allowed] at hcall
    | exact create_incident_envelope _ _ _ _ _ hcall
    | exact get_incident_envelope _ _ _ _ _ hcall
    | exact update_incident_envelope _ _ _ _ _ _ hcall
    | exact search_incidents_envelope _ _ _ _ _ hcall
    | exact list_incidents_envelope _ _ _ _ _ hcall
    | exact query_table_envelope _ _ _ _ _ _ hcall
    | exact get_record_envelope _ _ _ _ _ _ hcall

/-- Every 400 response of the application is one of the three
validation bodies: a bare `{"error": msg}` object. -/
lemma dispatch_400 (env : Env) (snow0 : Option ServiceNowClient) (vendor : Oracle)
    (req : Request) (h : (dispatch env snow0 vendor req).status = 400) :
    ∃ msg, (dispatch env snow0 vendor req).body = validationBody msg := by
  unfold dispatch at h ⊢
  revert h
  repeat' split
  all_goals intro h
  all_goals first
    | exact create_incident_400 _ _ _ _ h
    | exact get_incident_400 _ _ _ _ h
    | exact update_incident_400 _ _ _ _ _ h
    | exact search_incidents_400 _ _ _ _ h
    | exact list_incidents_400 _ _ _ _ h
    | exact query_table_400 _ _ _ _ _ h
    | exact get_record_400 _ _ _ _ _ h
    | simp [health_check, list_tools, list_resources, not_found, method_not_allowed] at h

/-! ### The claims -/

/-- C1: with a client available (valid credentials or existing
singleton), a `POST /mcp/incident/create` whose JSON body has a
non-empty `short_description` string and whose outbound vendor call
succeeds yields HTTP 201 with the vendor payload unchanged under
`result`. -/
theorem claim_C1_create_forwards (env : Env) (snow0 : Option ServiceNowClient)
    (vendor : Oracle) (args : List (String × String)) (fs : List (String × Json))
    (sd : String) (payload : Json) (c : ServiceNowClient) (s1 : Option ServiceNowClient)
    (hclient : get_snow_client env snow0 = .ok (c, s1))
    (hsd : fs.lookup "short_description" = some (.str sd))
    (hne : sd ≠ "")
    (hvendor : ∀ call, vendor call = .ok payload) :
    (dispatch env snow0 vendor ⟨.POST, ["mcp", "incident", "create"], args, some (.obj fs)⟩).status = 201 ∧
    (dispatch env snow0 vendor ⟨.POST, ["mcp", "incident", "create"], args, some (.obj fs)⟩).body.lookup "result"
      = some payload := by
  have hd : dispatch env snow0 vendor ⟨.POST, ["mcp", "incident", "create"], args, some (.obj fs)⟩
      = create_incident env snow0 vendor (some (.obj fs)) := rfl
  rw [hd]
  unfold create_incident
  rw [hclient]
  dsimp only
  cases fs with
  | nil => simp at hsd
  | cons p rest =>
    have ht : (Json.obj (p :: rest)).pyTruthy = true := rfl
    rw [ht]
    simp only [Bool.true_eq_false, if_false]
    have hpg : (Json.obj (p :: rest)).pyGet "short_description" = .ok (.str sd) := by
      simp [Json.pyGet, hsd]
    rw [hpg]
    dsimp only
    have hts : (Json.str sd).pyTruthy = true := by
      simp [Json.pyTruthy, hne]
    rw [hts]
    simp only [Bool.true_eq_false, if_false]
    rw [client_create_incident_eq, hvendor]
    dsimp only
    exact ⟨rfl, rfl⟩

/-- Witness for C1 at a concrete create request. -/
theorem claim_C1_create_forwards_witness :
    (dispatch ⟨some "https://sn5.example.com", some "u", some "p"⟩ none
      (fun _ => .ok (.obj [("sys_id", .str "abc")]))
      ⟨.POST, ["mcp", "incident", "create"], [],
        some (.obj [("short_description", .str "printer down"), ("priority", .str "3")])⟩).status
      = 201 ∧
    (dispatch ⟨some "https://sn5.example.com", some "u", some "p"⟩ none
      (fun _ => .ok (.obj [("sys_id", .str "abc")]))
      ⟨.POST, ["mcp", "incident", "create"], [],
        some (.obj [("short_description", .str "printer down"), ("priority", .str "3")])⟩).body.lookup "result"
      = some (.obj [("sys_id", .str "abc")]) :=
  claim_C1_create_forwards ⟨some "https://sn5.example.com", some "u", some "p"⟩ none
    (fun _ => .ok (.obj [("sys_id", .str "abc")])) []
    [("short_description", .str "printer down"), ("priority", .str "3")]
    "printer down" (.obj [("sys_id", .str "abc")])
    (ServiceNowClient.make "https://sn5.example.com" "u" "p")
    (some (ServiceNowClient.make "https://sn5.example.com" "u" "p"))
    rfl rfl (by decide) (fun _ => rfl)

/-- C2 counterexample: with credentials configured, a `POST
/mcp/incident/create` whose JSON body is a (truthy) array — a body
that lacks a truthy `short_description` field — yields 500 (the
`AttributeError` from `data.get` on a list), not 400. -/
theorem claim_C2_counterexample :
    (dispatch ⟨some "https://ex.service-now.com", some "admin", some "pw"⟩ none
      (fun _ => .ok .null)
      ⟨.POST, ["mcp", "incident", "create"], [], some (.arr [.num 1])⟩).status = 500 ∧
    (dispatch ⟨some "https://ex.service-now.com", some "admin", some "pw"⟩ none
      (fun _ => .ok .null)
      ⟨.POST, ["mcp", "incident", "create"], [], some (.arr [.num 1])⟩).status ≠ 400 := by
  constructor
  · rfl
  · decide

/-- C2 amended: when a client is obtainable, a `POST
/mcp/incident/create` whose JSON body is absent, falsy (e.g. empty),
or a JSON object without a truthy `short_description` returns 400 and
makes no outbound call.  (Truthy non-object bodies raise instead, and
with no client obtainable the configuration error wins: both give
500.) -/
theorem claim_C2_validation_400 (env : Env) (snow0 : Option ServiceNowClient)
    (vendor : Oracle) (args : List (String × String)) (body : Option Json)
    (c : ServiceNowClient) (s1 : Option ServiceNowClient)
    (hclient : get_snow_client env snow0 = .ok (c, s1))
    (hbody : body = none ∨ (∃ j, body = some j ∧ j.pyTruthy = false) ∨
      (∃ fs, body = some (.obj fs) ∧
        ((fs.lookup "short_description").getD .null).pyTruthy = false)) :
    (dispatch env snow0 vendor ⟨.POST, ["mcp", "incident", "create"], args, body⟩).status = 400 ∧
    (dispatch env snow0 vendor ⟨.POST, ["mcp", "incident", "create"], args, body⟩).calls = [] := by
  have hd : dispatch env snow0 vendor ⟨.POST, ["mcp", "incident", "create"], args, body⟩
      = create_incident env snow0 vendor body := rfl
  rw [hd]
  unfold create_incident
  rw [hclient]
  dsimp only
  rcases hbody with hb | ⟨j, hb, hj⟩ | ⟨fs, hb, hfs⟩
  · subst hb
    exact ⟨rfl, rfl⟩
  · subst hb
    dsimp only
    rw [if_pos hj]
    exact ⟨rfl, rfl⟩
  · subst hb
    dsimp only
    cases fs with
    | nil => exact ⟨rfl, rfl⟩
    | cons p rest =>
      have ht : (Json.obj (p :: rest)).pyTruthy = true := rfl
      rw [ht]
      simp only [Bool.true_eq_false, if_false]
      have hpg : (Json.obj (p :: rest)).pyGet "short_description"
          = .ok (((p :: rest).lookup "short_description").getD .null) := rfl
      rw [hpg]
      dsimp only
      rw [if_pos hfs]
      exact ⟨rfl, rfl⟩

/-- Witness for the amended C2 at a concrete empty-object body. -/
theorem claim_C2_validation_400_witness :
    (dispatch ⟨some "https://sn6.example.com", some "u", some "p"⟩ none
      (fun _ => .ok .null)
      ⟨.POST, ["mcp", "incident", "create"], [], some (.obj [])⟩).status = 400 ∧
    (dispatch ⟨some "https://sn6.example.com", some "u", some "p"⟩ none
      (fun _ => .ok .null)
      ⟨.POST, ["mcp", "incident", "create"], [], some (.obj [])⟩).calls = [] :=
  claim_C2_validation_400 ⟨some "https://sn6.example.com", some "u", some "p"⟩ none
    (fun _ => .ok .null) [] (some (.obj []))
    (ServiceNowClient.make "https://sn6.example.com" "u" "p")
    (some (ServiceNowClient.make "https://sn6.example.com" "u" "p"))
    rfl (Or.inr (Or.inl ⟨.obj [], rfl, rfl⟩))

/-- C3: on every route, if the handler made its outbound vendor call
and that call raised an exception with message `e`, the response is
HTTP 500 and the body's `error` field carries `e`. -/
theorem claim_C3_vendor_error_500 (env : Env) (snow0 : Option ServiceNowClient)
    (vendor : Oracle) (req : Request) (call : OutboundCall) (e : String)
    (hcall : (dispatch env snow0 vendor req).calls = [call])
    (herr : vendor call = .error e) :
    (dispatch env snow0 vendor req).status = 500 ∧
    (dispatch env snow0 vendor req).body.lookup "error" = some (.str e) := by
  obtain ⟨-, h2⟩ := dispatch_envelope env snow0 vendor req call hcall
  obtain ⟨ha, -, hc⟩ := h2 e herr
  exact ⟨ha, hc⟩

/-- Witness for C3 at a concrete request: `GET /mcp/incident/abc`
against a configured environment with a vendor that raises `boom`. -/
theorem claim_C3_vendor_error_500_witness :
    (dispatch ⟨some "https://sn.example.com", some "u", some "p"⟩ none
      (fun _ => .error "boom") ⟨.GET, ["mcp", "incident", "abc"], [], none⟩).status = 500 ∧
    (dispatch ⟨some "https://sn.example.com", some "u", some "p"⟩ none
      (fun _ => .error "boom") ⟨.GET, ["mcp", "incident", "abc"], [], none⟩).body.lookup "error"
      = some (.str "boom") :=
  claim_C3_vendor_error_500 ⟨some "https://sn.example.com", some "u", some "p"⟩ none
    (fun _ => .error "boom") ⟨.GET, ["mcp", "incident", "abc"], [], none⟩
    ⟨"GET", "https://sn.example.com/api/now/table/incident/abc", none⟩ "boom" rfl rfl

/-- C4: a request whose path matches no registered route returns 404
with an `Endpoint not found` error body. -/
theorem claim_C4_unknown_route_404 (env : Env) (snow0 : Option ServiceNowClient)
    (vendor : Oracle) (req : Request) (h : pathMatches req.path = false) :
    (dispatch env snow0 vendor req).status = 404 ∧
    (dispatch env snow0 vendor req).body.lookup "error" = some (.str "Endpoint not found") := by
  obtain ⟨m, p, a, b⟩ := req
  unfold dispatch
  dsimp only at h ⊢
  split
  all_goals first
    | exact ⟨rfl, rfl⟩
    | simp [pathMatches] at h

/-- Witness for C4 at a concrete unknown path. -/
theorem claim_C4_unknown_route_404_witness :
    (dispatch ⟨none, none, none⟩ none (fun _ => .ok .null)
      ⟨.GET, ["definitely", "not", "registered"], [], none⟩).status = 404 ∧
    (dispatch ⟨none, none, none⟩ none (fun _ => .ok .null)
      ⟨.GET, ["definitely", "not", "registered"], [], none⟩).body.lookup "error"
      = some (.str "Endpoint not found") :=
  claim_C4_unknown_route_404 ⟨none, none, none⟩ none (fun _ => .ok .null)
    ⟨.GET, ["definitely", "not", "registered"], [], none⟩ rfl

/-- C5: if any of the three required environment variables is unset or
empty and no client has been constructed, `get_snow_client` raises the
`ValueError` naming all three required variables, before any vendor
call can happen. -/
theorem claim_C5_missing_env_valueerror (env : Env)
    (h : envTruthy env.SERVICENOW_INSTANCE_URL = false ∨
      envTruthy env.SERVICENOW_USERNAME = false ∨
      envTruthy env.SERVICENOW_PASSWORD = false) :
    get_snow_client env none = .error missingEnvMessage ∧
    missingEnvMessage = "Missing required environment variables: SERVICENOW_INSTANCE_URL, SERVICENOW_USERNAME, SERVICENOW_PASSWORD" := by
  have hc : envConfigured env = false := by
    unfold envConfigured
    rcases h with h | h | h <;> simp [h]
  constructor
  · unfold get_snow_client
    simp [hc]
  · rfl

/-- Witness for C5: only the instance URL is missing. -/
theorem claim_C5_missing_env_valueerror_witness :
    get_snow_client ⟨none, some "u", some "p"⟩ none = .error missingEnvMessage ∧
    missingEnvMessage = "Missing required environment variables: SERVICENOW_INSTANCE_URL, SERVICENOW_USERNAME, SERVICENOW_PASSWORD" :=
  claim_C5_missing_env_valueerror ⟨none, some "u", some "p"⟩ (Or.inl rfl)

/-- C6 counterexample: a 400 validation response carries only an
`error` field — it has no `status` field at all, so the error-branch
envelope (`status`/`error`) does not cover the 400 validation
responses as claimed. -/
theorem claim_C6_counterexample :
    (dispatch ⟨some "https://sn2.example.com", some "u", some "p"⟩ none
      (fun _ => .ok .null)
      ⟨.POST, ["mcp", "incident", "create"], [], some (.obj [("description", .str "x")])⟩).status = 400 ∧
    (dispatch ⟨some "https://sn2.example.com", some "u", some "p"⟩ none
      (fun _ => .ok .null)
      ⟨.POST, ["mcp", "incident", "create"], [], some (.obj [("description", .str "x")])⟩).body.lookup "status"
      = none := ⟨rfl, rfl⟩

/-- C6 amended: on every route, a response produced from an outbound
call wraps it in the envelope — `status = success` with the outbound
response under `result` on success, and a 500 with `status = error`
and the message under `error` on outbound failure — while the 400
validation responses carry only an `error` field and no `status`
field. -/
theorem claim_C6_envelope (env : Env) (snow0 : Option ServiceNowClient)
    (vendor : Oracle) (req : Request) :
    (∀ call r, (dispatch env snow0 vendor req).calls = [call] → vendor call = .ok r →
      (dispatch env snow0 vendor req).body.lookup "status" = some (.str "success") ∧
      (dispatch env snow0 vendor req).body.lookup "result" = some r) ∧
    (∀ call e, (dispatch env snow0 vendor req).calls = [call] → vendor call = .error e →
      (dispatch env snow0 vendor req).status = 500 ∧
      (dispatch env snow0 vendor req).body.lookup "status" = some (.str "error") ∧
      (dispatch env snow0 vendor req).body.lookup "error" = some (.str e)) ∧
    ((dispatch env snow0 vendor req).status = 400 →
      (dispatch env snow0 vendor req).body.lookup "status" = none ∧
      ∃ msg, (dispatch env snow0 vendor req).body.lookup "error" = some (.str msg)) := by
  refine ⟨fun call r hc hr => (dispatch_envelope env snow0 vendor req call hc).1 r hr,
    fun call e hc he => (dispatch_envelope env snow0 vendor req call hc).2 e he,
    fun h400 => ?_⟩
  obtain ⟨msg, hb⟩ := dispatch_400 env snow0 vendor req h400
  rw [hb]
  exact ⟨rfl, msg, rfl⟩

/-- Witness for C6 at a concrete successful `GET /mcp/table/problem`. -/
theorem claim_C6_envelope_witness :
    (dispatch ⟨some "https://sn2.example.com", some "u", some "p"⟩ none
      (fun _ => .ok (.obj [("x", .num 1)]))
      ⟨.GET, ["mcp", "table", "problem"], [], none⟩).body.lookup "status" = some (.str "success") ∧
    (dispatch ⟨some "https://sn2.example.com", some "u", some "p"⟩ none
      (fun _ => .ok (.obj [("x", .num 1)]))
      ⟨.GET, ["mcp", "table", "problem"], [], none⟩).body.lookup "result"
      = some (.obj [("x", .num 1)]) :=
  (claim_C6_envelope ⟨some "https://sn2.example.com", some "u", some "p"⟩ none
    (fun _ => .ok (.obj [("x", .num 1)]))
    ⟨.GET, ["mcp", "table", "problem"], [], none⟩).1
    ⟨"GET", "https://sn2.example.com/api/now/table/problem",
      some (.obj [("sysparm_limit", .num 10)])⟩
    (.obj [("x", .num 1)]) rfl rfl

/-- C7: the client is a construct-once, read-only singleton: an
existing client is returned as is by `get_snow_client` and preserved
unchanged by every request; from an empty state at most the one
client built from the environment ever appears; and construction
stores the trailing-slash-stripped instance URL. -/
theorem claim_C7_singleton_client (env : Env) (snow0 : Option ServiceNowClient)
    (vendor : Oracle) (req : Request) :
    ((dispatch env snow0 vendor req).snow = snow0 ∨
      (dispatch env snow0 vendor req).snow = nextSnow env snow0) ∧
    (∀ c : ServiceNowClient, get_snow_client env (some c) = .ok (c, some c)) ∧
    (∀ c : ServiceNowClient, nextSnow env (some c) = some c) ∧
    (∀ url username password : String,
      (ServiceNowClient.make url username password).instance_url = rstripSlash url ∧
      (ServiceNowClient.make url username password).username = username ∧
      (ServiceNowClient.make url username password).password = password ∧
      (ServiceNowClient.make url username password).auth = (username, password) ∧
      (ServiceNowClient.make url username password).headers
        = [("Content-Type", "application/json"), ("Accept", "application/json")]) :=
  ⟨dispatch_snow env snow0 vendor req, fun _ => rfl, fun _ => rfl,
    fun _ _ _ => ⟨rfl, rfl, rfl, rfl, rfl⟩⟩

/-- C8 counterexample: with credentials configured, a search request
with a non-empty `query` but an unparseable `limit` makes no outbound
call at all (500 from `int()`), so the claimed forwarding does not
happen. -/
theorem claim_C8_counterexample :
    (dispatch ⟨some "https://sn3.example.com", some "u", some "p"⟩ none
      (fun _ => .ok .null)
      ⟨.GET, ["mcp", "incidents", "search"], [("query", "x"), ("limit", "abc")], none⟩).calls = [] ∧
    (dispatch ⟨some "https://sn3.example.com", some "u", some "p"⟩ none
      (fun _ => .ok .null)
      ⟨.GET, ["mcp", "incidents", "search"], [("query", "x"), ("limit", "abc")], none⟩).status = 500 :=
  ⟨rfl, rfl⟩

/-- C8 amended: when a client is obtainable and the `limit` parameter
is absent or parses as an integer (`n`, default 10), a `GET
/mcp/incidents/search` with a non-empty `query` forwards it as
`sysparm_query` and `n` as `sysparm_limit` in the single outbound GET
to `table/incident`; with `query` absent or empty it returns 400
without contacting the vendor. -/
theorem claim_C8_search_forwarding (env : Env) (snow0 : Option ServiceNowClient)
    (vendor : Oracle) (args : List (String × String)) (body : Option Json)
    (c : ServiceNowClient) (s1 : Option ServiceNowClient) (n : Int)
    (hclient : get_snow_client env snow0 = .ok (c, s1))
    (hlimit : parseLimit args = .ok n) :
    ((args.lookup "query").getD "" ≠ "" →
      (dispatch env snow0 vendor ⟨.GET, ["mcp", "incidents", "search"], args, body⟩).calls
        = [searchIncidentsCall c ((args.lookup "query").getD "") n]) ∧
    ((args.lookup "query").getD "" = "" →
      (dispatch env snow0 vendor ⟨.GET, ["mcp", "incidents", "search"], args, body⟩).status = 400 ∧
      (dispatch env snow0 vendor ⟨.GET, ["mcp", "incidents", "search"], args, body⟩).calls = []) := by
  have hd : dispatch env snow0 vendor ⟨.GET, ["mcp", "incidents", "search"], args, body⟩
      = search_incidents env snow0 vendor args := rfl
  rw [hd]
  unfold search_incidents
  rw [hclient]
  dsimp only
  rw [hlimit]
  dsimp only
  constructor
  · intro hq
    rw [if_neg hq, client_search_incidents_eq]
    cases hv : vendor (searchIncidentsCall c ((args.lookup "query").getD "") n) <;> rfl
  · intro hq
    rw [if_pos hq]
    exact ⟨rfl, rfl⟩

/-- Witness for C8 at a concrete search with `query=state=1` and no
`limit` (default 10). -/
theorem claim_C8_search_forwarding_witness :
    (dispatch ⟨some "https://sn4.example.com", some "u", some "p"⟩ none
      (fun _ => .ok .null)
      ⟨.GET, ["mcp", "incidents", "search"], [("query", "state=1")], none⟩).calls
      = [⟨"GET", "https://sn4.example.com/api/now/table/incident",
          some (.obj [("sysparm_query", .str "state=1"), ("sysparm_limit", .num 10)])⟩] :=
  (claim_C8_search_forwarding ⟨some "https://sn4.example.com", some "u", some "p"⟩ none
    (fun _ => .ok .null) [("query", "state=1")] none
    (ServiceNowClient.make "https://sn4.example.com" "u" "p") 
    (some (ServiceNowClient.make "https://sn4.example.com" "u" "p")) 10 rfl rfl).1
    (by decide)

/-- C9: with the credentials not configured and no client constructed,
a `POST /mcp/incident/create` whose body lacks a truthy
`short_description` returns 500 (the configuration `ValueError`), not
400, because the handler fetches the client before validating the
body; no vendor call is made. -/
theorem claim_C9_config_error_wins (env : Env) (vendor : Oracle)
    (args : List (String × String)) (body : Option Json)
    (henv : envConfigured env = false)
    (hbody : body = none ∨ ∃ fs, body = some (.obj fs) ∧
      ((fs.lookup "short_description").getD .null).pyTruthy = false) :
    (dispatch env none vendor ⟨.POST, ["mcp", "incident", "create"], args, body⟩).status = 500 ∧
    (dispatch env none vendor ⟨.POST, ["mcp", "incident", "create"], args, body⟩).status ≠ 400 ∧
    (dispatch env none vendor ⟨.POST, ["mcp", "incident", "create"], args, body⟩).body.lookup "error"
      = some (.str missingEnvMessage) ∧
    (dispatch env none vendor ⟨.POST, ["mcp", "incident", "create"], args, body⟩).calls = [] := by
  have hd : dispatch env none vendor ⟨.POST, ["mcp", "incident", "create"], args, body⟩
      = create_incident env none vendor body := rfl
  have hg : get_snow_client env none = .error missingEnvMessage := by
    unfold get_snow_client
    simp [henv]
  rw [hd]
  unfold create_incident
  rw [hg]
  exact ⟨rfl, by dsimp only; decide, rfl, rfl⟩

/-- Witness for C9: all three variables unset, absent body. -/
theorem claim_C9_config_error_wins_witness :
    (dispatch ⟨none, none, none⟩ none (fun _ => .ok .null)
      ⟨.POST, ["mcp", "incident", "create"], [], none⟩).status = 500 ∧
    (dispatch ⟨none, none, none⟩ none (fun _ => .ok .null)
      ⟨.POST, ["mcp", "incident", "create"], [], none⟩).status ≠ 400 ∧
    (dispatch ⟨none, none, none⟩ none (fun _ => .ok .null)
      ⟨.POST, ["mcp", "incident", "create"], [], none⟩).body.lookup "error"
      = some (.str missingEnvMessage) ∧
    (dispatch ⟨none, none, none⟩ none (fun _ => .ok .null)
      ⟨.POST, ["mcp", "incident", "create"], [], none⟩).calls = [] :=
  claim_C9_config_error_wins ⟨none, none, none⟩ (fun _ => .ok .null) [] none rfl (Or.inl rfl)

/-- C10: on the three limit-taking GET routes, a present but
unparseable `limit` yields 500 (the `int()` `ValueError` caught by the
blanket handler), not 400, and no outbound call is made. -/
theorem claim_C10_bad_limit_500 (env : Env) (snow0 : Option ServiceNowClient)
    (vendor : Oracle) (args : List (String × String)) (body : Option Json)
    (table_name s e : String)
    (hs : args.lookup "limit" = some s)
    (hp : pyInt s = .error e) :
    ((dispatch env snow0 vendor ⟨.GET, ["mcp", "incidents", "search"], args, body⟩).status = 500 ∧
      (dispatch env snow0 vendor ⟨.GET, ["mcp", "incidents", "search"], args, body⟩).calls = []) ∧
    ((dispatch env snow0 vendor ⟨.GET, ["mcp", "incidents"], args, body⟩).status = 500 ∧
      (dispatch env snow0 vendor ⟨.GET, ["mcp", "incidents"], args, body⟩).calls = []) ∧
    ((dispatch env snow0 vendor ⟨.GET, ["mcp", "table", table_name], args, body⟩).status = 500 ∧
      (dispatch env snow0 vendor ⟨.GET, ["mcp", "table", table_name], args, body⟩).calls = []) := by
  have hpl : parseLimit args = .error e := by
    unfold parseLimit
    rw [hs]
    exact hp
  have hd1 : dispatch env snow0 vendor ⟨.GET, ["mcp", "incidents", "search"], args, body⟩
      = search_incidents env snow0 vendor args := rfl
  have hd2 : dispatch env snow0 vendor ⟨.GET, ["mcp", "incidents"], args, body⟩
      = list_incidents env snow0 vendor args := rfl
  have hd3 : dispatch env snow0 vendor ⟨.GET, ["mcp", "table", table_name], args, body⟩
      = query_table env snow0 vendor table_name args := rfl
  rw [hd1, hd2, hd3]
  unfold search_incidents list_incidents query_table
  rcases hg : get_snow_client env snow0 with e0 | ⟨c, s1⟩
  · exact ⟨⟨rfl, rfl⟩, ⟨rfl, rfl⟩, ⟨rfl, rfl⟩⟩
  · dsimp only
    rw [hpl]
    exact ⟨⟨rfl, rfl⟩, ⟨rfl, rfl⟩, ⟨rfl, rfl⟩⟩

/-- Witness for C10 with `limit=abc` against an unconfigured
environment. -/
theorem claim_C10_bad_limit_500_witness :
    ((dispatch ⟨none, none, none⟩ none (fun _ => .ok .null)
      ⟨.GET, ["mcp", "incidents", "search"], [("limit", "abc")], none⟩).status = 500 ∧
      (dispatch ⟨none, none, none⟩ none (fun _ => .ok .null)
      ⟨.GET, ["mcp", "incidents", "search"], [("limit", "abc")], none⟩).calls = []) ∧
    ((dispatch ⟨none, none, none⟩ none (fun _ => .ok .null)
      ⟨.GET, ["mcp", "incidents"], [("limit", "abc")], none⟩).status = 500 ∧
      (dispatch ⟨none, none, none⟩ none (fun _ => .ok .null)
      ⟨.GET, ["mcp", "incidents"], [("limit", "abc")], none⟩).calls = []) ∧
    ((dispatch ⟨none, none, none⟩ none (fun _ => .ok .null)
      ⟨.GET, ["mcp", "table", "problem"], [("limit", "abc")], none⟩).status = 500 ∧
      (dispatch ⟨none, none, none⟩ none (fun _ => .ok .null)
      ⟨.GET, ["mcp", "table", "problem"], [("limit", "abc")], none⟩).calls = []) :=
  claim_C10_bad_limit_500 ⟨none, none, none⟩ none (fun _ => .ok .null)
    [("limit", "abc")] none "problem" "abc"
    "invalid literal for int() with base 10: 'abc'" rfl rfl

end SNowMCP
